import Mathlib

/-!
Verification of the paho MQTT v5 client core (src/paho/client.go) against its
natural-language specification.  The Go code is shallowly embedded: each
operation of the session controller becomes a pure Lean function over an
explicit state, with the scripted peer response (or the elapsed deadline)
passed as a parameter.  Machine integers of the source (uint16, byte, uint32)
are modelled as Nat; Go nil-able pointer fields become Option; errors become
explicit sum types.
-/

namespace PahoClient

/-- Control-packet type tags, mirroring the packets package constants. -/
inductive PacketType where
  | CONNECT
  | CONNACK
  | PUBLISH
  | PUBACK
  | PUBREC
  | PUBREL
  | PUBCOMP
  | SUBSCRIBE
  | SUBACK
  | UNSUBSCRIBE
  | UNSUBACK
  | PINGREQ
  | PINGRESP
  | DISCONNECT
  | AUTH
  deriving DecidableEq, Repr

/-- A packet as written to the transport, keeping the fields the claims are
about (packet identifier, reason code, publish metadata). -/
inductive WirePacket where
  | connectPkt (clientID : String) (protocolName : String) (protocolVersion : Nat) (keepAlive : Nat)
  | publishPkt (pid : Nat) (qos : Nat) (retain : Bool) (topic : String) (payloadSize : Nat)
  | pubackPkt (pid : Nat)
  | pubrecPkt (pid : Nat)
  | pubrelPkt (pid : Nat) (reasonCode : Nat)
  | pubcompPkt (pid : Nat)
  | subscribePkt (pid : Nat)
  | unsubscribePkt (pid : Nat)
  | disconnectPkt
  deriving DecidableEq, Repr

/-- CommsProperties from client.go: the communication properties a peer may
advertise and that gate later subscribes/publishes. -/
structure CommsProperties where
  ReceiveMaximum : Nat
  MaximumQoS : Nat
  MaximumPacketSize : Nat
  TopicAliasMaximum : Nat
  RetainAvailable : Bool
  WildcardSubAvailable : Bool
  SubIDAvailable : Bool
  SharedSubAvailable : Bool
  deriving DecidableEq, Repr

/-- serverProps default of NewClient (client.go 73-82). -/
def defaultServerProps : CommsProperties :=
  { ReceiveMaximum := 65535
    MaximumQoS := 2
    MaximumPacketSize := 0
    TopicAliasMaximum := 0
    RetainAvailable := true
    WildcardSubAvailable := true
    SubIDAvailable := true
    SharedSubAvailable := true }

/-- clientProps default of NewClient (client.go 83-88); the Go struct literal
leaves the boolean fields at their zero value false. -/
def defaultClientProps : CommsProperties :=
  { ReceiveMaximum := 65535
    MaximumQoS := 2
    MaximumPacketSize := 0
    TopicAliasMaximum := 0
    RetainAvailable := false
    WildcardSubAvailable := false
    SubIDAvailable := false
    SharedSubAvailable := false }

/-- The properties of an outbound Connect packet that Connect reads
(client.go 122-135); Go nil pointers are Option none. -/
structure ConnectProperties where
  MaximumPacketSize : Option Nat
  MaximumQOS : Option Nat
  ReceiveMaximum : Option Nat
  TopicAliasMaximum : Option Nat
  deriving DecidableEq, Repr

/-- The caller-supplied Connect parameters used by Client.Connect. -/
structure ConnectPacket where
  ClientID : String
  KeepAlive : Nat
  Properties : Option ConnectProperties
  deriving DecidableEq, Repr

/-- The CONNACK properties Connect reads (client.go 183-206).  An absent
AssignedClientID is the empty string, as in the Go packets struct. -/
structure ConnackProperties where
  ServerKeepAlive : Option Nat
  AssignedClientID : String
  ReceiveMaximum : Option Nat
  MaximumQoS : Option Nat
  MaximumPacketSize : Option Nat
  TopicAliasMaximum : Option Nat
  RetainAvailable : Bool
  WildcardSubAvailable : Bool
  SubIDAvailable : Bool
  SharedSubAvailable : Bool
  ReasonString : String
  deriving DecidableEq, Repr

/-- A CONNACK packet. -/
structure Connack where
  ReasonCode : Nat
  Properties : Option ConnackProperties
  deriving DecidableEq, Repr

/-- The client state touched by Connect: identifier, the two CommsProperties
instances, the capacities the two inflight semaphores were created with
(none before Connect completes), and whether a transport is attached
(Conn == nil in Go is hasConn = false). -/
structure Client where
  ClientID : String
  serverProps : CommsProperties
  clientProps : CommsProperties
  serverInflightCap : Option Nat
  clientInflightCap : Option Nat
  hasConn : Bool
  deriving DecidableEq, Repr

/-- NewClient (client.go 69-102) restricted to the modelled fields. -/
def newClient (hasConn : Bool) : Client :=
  { ClientID := ""
    serverProps := defaultServerProps
    clientProps := defaultClientProps
    serverInflightCap := none
    clientInflightCap := none
    hasConn := hasConn }

/-- The clientProps update at the top of Connect (client.go 122-135): each
field is overwritten only when the corresponding Connect property pointer is
non-nil. -/
def applyConnectProps (cp : CommsProperties) (p : Option ConnectProperties) : CommsProperties :=
  match p with
  | none => cp
  | some pr =>
    let cp := match pr.MaximumPacketSize with
      | some v => { cp with MaximumPacketSize := v }
      | none => cp
    let cp := match pr.MaximumQOS with
      | some v => { cp with MaximumQoS := v }
      | none => cp
    let cp := match pr.ReceiveMaximum with
      | some v => { cp with ReceiveMaximum := v }
      | none => cp
    match pr.TopicAliasMaximum with
      | some v => { cp with TopicAliasMaximum := v }
      | none => cp

/-- The serverProps update after a successful CONNACK (client.go 190-205):
numeric fields are overwritten when present, the four availability booleans
unconditionally. -/
def applyConnackProps (sp : CommsProperties) (p : ConnackProperties) : CommsProperties :=
  let sp := match p.ReceiveMaximum with
    | some v => { sp with ReceiveMaximum := v }
    | none => sp
  let sp := match p.MaximumQoS with
    | some v => { sp with MaximumQoS := v }
    | none => sp
  let sp := match p.MaximumPacketSize with
    | some v => { sp with MaximumPacketSize := v }
    | none => sp
  let sp := match p.TopicAliasMaximum with
    | some v => { sp with TopicAliasMaximum := v }
    | none => sp
  { sp with
    RetainAvailable := p.RetainAvailable
    WildcardSubAvailable := p.WildcardSubAvailable
    SubIDAvailable := p.SubIDAvailable
    SharedSubAvailable := p.SharedSubAvailable }

/-- Reason string extraction on a refused CONNACK (client.go 175-179). -/
def connackReasonString (ca : Connack) : String :=
  match ca.Properties with
  | some p => p.ReasonString
  | none => ""

/-- The keep-alive actually used: the Connect packet value, overridden by
ServerKeepAlive when the CONNACK carries one (client.go 120, 184-186). -/
def connackKeepalive (k : Nat) (ca : Connack) : Nat :=
  match ca.Properties with
  | some p =>
    match p.ServerKeepAlive with
    | some sk => sk
    | none => k
  | none => k

/-- Adoption of the CONNACK properties into the client state
(client.go 183-206): nothing happens when ca.Properties is nil; a non-empty
AssignedClientID replaces the client identifier. -/
def connackAdopt (c : Client) (ca : Connack) : Client :=
  match ca.Properties with
  | none => c
  | some p =>
    let c := if p.AssignedClientID ≠ "" then { c with ClientID := p.AssignedClientID } else c
    { c with serverProps := applyConnackProps c.serverProps p }

/-- Errors Connect can surface in the modelled paths. -/
inductive ConnectErr where
  | nilConn
  | refused (code : Nat) (reasonString : String)
  deriving DecidableEq, Repr

/-- Everything observable about one Connect call: the resulting client state,
the packets written to the transport, whether the Incoming reader and the
Pinger were started, the keep-alive the Pinger was started with, the CONNACK
handed back, and the error. -/
structure ConnectResult where
  state : Client
  written : List WirePacket
  incomingStarted : Bool
  pingerStarted : Bool
  keepalive : Nat
  connack : Option Connack
  err : Option ConnectErr
  deriving DecidableEq, Repr

/-- Client.Connect (client.go 111-219).  The scripted CONNACK reply ca stands
for the packet the Incoming reader would deliver through the handshake waiter
slot; the deadline path is not modelled here. -/
def Client.Connect (c : Client) (cp : ConnectPacket) (ca : Connack) : ConnectResult :=
  if c.hasConn = false then
    { state := c
      written := []
      incomingStarted := false
      pingerStarted := false
      keepalive := 0
      connack := none
      err := some ConnectErr.nilConn }
  else
    let c1 := { c with
      ClientID := cp.ClientID
      clientProps := applyConnectProps c.clientProps cp.Properties }
    let written := [WirePacket.connectPkt cp.ClientID "MQTT" 5 cp.KeepAlive]
    if 0x80 ≤ ca.ReasonCode then
      { state := c1
        written := written
        incomingStarted := true
        pingerStarted := false
        keepalive := cp.KeepAlive
        connack := some ca
        err := some (ConnectErr.refused ca.ReasonCode (connackReasonString ca)) }
    else
      let c2 := connackAdopt c1 ca
      let c3 := { c2 with
        serverInflightCap := some c2.serverProps.ReceiveMaximum
        clientInflightCap := some c2.clientProps.ReceiveMaximum }
      { state := c3
        written := written
        incomingStarted := true
        pingerStarted := true
        keepalive := connackKeepalive cp.KeepAlive ca
        connack := some ca
        err := none }

/-- A PUBREL packet (only the fields the handler reads). -/
structure Pubrel where
  PacketID : Nat
  ReasonCode : Nat
  deriving DecidableEq, Repr

/-- The PUBREL case of the ingress demultiplexer Client.Incoming
(client.go 306-317): the packets it writes to the transport.  The source
continues the loop (writes nothing) when the reason code is below 0x80 and
writes a PUBCOMP with the same packet identifier otherwise. -/
def incomingPubrel (pr : Pubrel) : List WirePacket :=
  if pr.ReasonCode < 0x80 then []
  else [WirePacket.pubcompPkt pr.PacketID]

/-- A PUBACK packet; ReasonStr models packets.Puback.Reason(). -/
structure Puback where
  PacketID : Nat
  ReasonCode : Nat
  ReasonStr : String
  deriving DecidableEq, Repr

/-- A PUBREC packet as seen by the publish waiter. -/
structure Pubrec where
  PacketID : Nat
  ReasonCode : Nat
  deriving DecidableEq, Repr

/-- A PUBCOMP packet as seen by the publish waiter. -/
structure Pubcomp where
  PacketID : Nat
  ReasonCode : Nat
  deriving DecidableEq, Repr

/-- A control packet delivered to a publish waiter slot. -/
inductive ControlPacket where
  | puback (p : Puback)
  | pubrec (p : Pubrec)
  | pubcomp (p : Pubcomp)
  | other (t : PacketType)
  deriving DecidableEq, Repr

/-- The type tag of a delivered control packet. -/
def ControlPacket.ptype : ControlPacket → PacketType
  | .puback _ => PacketType.PUBACK
  | .pubrec _ => PacketType.PUBREC
  | .pubcomp _ => PacketType.PUBCOMP
  | .other t => t

/-- What the waiter slot produced: either the deadline elapsed first, or a
control packet was delivered by the demultiplexer. -/
inductive WaitOutcome where
  | deadlineExceeded
  | received (p : ControlPacket)
  deriving DecidableEq, Repr

/-- The paho PublishResponse handed back to the caller (reason code only). -/
structure PublishResponse where
  ReasonCode : Nat
  deriving DecidableEq, Repr

/-- Errors of Client.Publish / Client.publishQoS12, one constructor per
distinct source return. -/
inductive PublishErr where
  | qosDenied (q maxQ : Nat)
  | aliasDenied (a maxAlias : Nat)
  | retainDenied
  | timeout
  | unexpectedPacket (got expected : PacketType)
  | errorPublishing (reason : String)
  | badQoS (q : Nat)
  | oops
  deriving DecidableEq, Repr

/-- The properties of an outbound Publish read by the pre-flight checks. -/
structure PublishProperties where
  TopicAlias : Option Nat
  deriving DecidableEq, Repr

/-- The caller-supplied Publish parameters; payloadSize stands for the size
of the encoded body. -/
structure PublishPacket where
  QoS : Nat
  Retain : Bool
  Topic : String
  payloadSize : Nat
  Properties : Option PublishProperties
  deriving DecidableEq, Repr

/-- Everything observable about one Publish call: wire writes, inflight
permits acquired and released, the response, and the error. -/
structure PublishResult where
  written : List WirePacket
  permitsAcquired : Nat
  permitsReleased : Nat
  response : Option PublishResponse
  err : Option PublishErr
  deriving DecidableEq, Repr

/-- Client.publishQoS12 (client.go 560-617), with the waiter outcome
scripted.  The permit acquisition is assumed to succeed, so exactly one
permit is acquired; permitsReleased records the serverInflight.Release calls
actually executed on the taken path. -/
def publishQoS12 (pb : PublishPacket) (pid : Nat) (w : WaitOutcome) : PublishResult :=
  let written := [WirePacket.publishPkt pid pb.QoS pb.Retain pb.Topic pb.payloadSize]
  match w with
  | WaitOutcome.deadlineExceeded =>
    { written := written
      permitsAcquired := 1
      permitsReleased := 0
      response := none
      err := some PublishErr.timeout }
  | WaitOutcome.received resp =>
    match pb.QoS, resp with
    | 1, ControlPacket.puback pa =>
      if 0x80 ≤ pa.ReasonCode then
        { written := written
          permitsAcquired := 1
          permitsReleased := 1
          response := some { ReasonCode := pa.ReasonCode }
          err := some (PublishErr.errorPublishing pa.ReasonStr) }
      else
        { written := written
          permitsAcquired := 1
          permitsReleased := 1
          response := some { ReasonCode := pa.ReasonCode }
          err := none }
    | 1, r =>
      { written := written
        permitsAcquired := 1
        permitsReleased := 0
        response := none
        err := some (PublishErr.unexpectedPacket r.ptype PacketType.PUBACK) }
    | 2, ControlPacket.pubcomp pc =>
      { written := written
        permitsAcquired := 1
        permitsReleased := 1
        response := some { ReasonCode := pc.ReasonCode }
        err := none }
    | 2, ControlPacket.pubrec pr =>
      { written := written
        permitsAcquired := 1
        permitsReleased := 1
        response := some { ReasonCode := pr.ReasonCode }
        err := none }
    | 2, r =>
      { written := written
        permitsAcquired := 1
        permitsReleased := 0
        response := none
        err := some (PublishErr.unexpectedPacket r.ptype PacketType.PUBCOMP) }
    | q, _ =>
      { written := written
        permitsAcquired := 1
        permitsReleased := 0
        response := none
        err := some (PublishErr.badQoS q) }

/-- The topic-alias violation test of Client.Publish (client.go 533-537):
some alias when the packet carries one, the server advertises a positive
TopicAliasMaximum, and the alias exceeds it. -/
def publishAliasViolation (sp : CommsProperties) (p : PublishPacket) : Option Nat :=
  match p.Properties with
  | some pp =>
    match pp.TopicAlias with
    | some a =>
      if 0 < sp.TopicAliasMaximum ∧ sp.TopicAliasMaximum < a then some a else none
    | none => none
  | none => none

/-- The pre-flight capability validation of Client.Publish
(client.go 530-540), in source order: QoS against MaximumQoS, then topic
alias, then retain.  The source performs no check of the body size against
serverProps.MaximumPacketSize. -/
def publishPreflight (sp : CommsProperties) (p : PublishPacket) : Option PublishErr :=
  if sp.MaximumQoS < p.QoS then some (PublishErr.qosDenied p.QoS sp.MaximumQoS)
  else
    match publishAliasViolation sp p with
    | some a => some (PublishErr.aliasDenied a sp.TopicAliasMaximum)
    | none =>
      if sp.RetainAvailable = false ∧ p.Retain = true then some PublishErr.retainDenied
      else none

/-- Client.Publish (client.go 529-558): pre-flight validation, then QoS 0
fire-and-forget or the QoS 1/2 exchange. -/
def Publish (sp : CommsProperties) (p : PublishPacket) (pid : Nat) (w : WaitOutcome) :
    PublishResult :=
  match publishPreflight sp p with
  | some e =>
    { written := []
      permitsAcquired := 0
      permitsReleased := 0
      response := none
      err := some e }
  | none =>
    if p.QoS = 0 then
      { written := [WirePacket.publishPkt pid 0 p.Retain p.Topic p.payloadSize]
        permitsAcquired := 0
        permitsReleased := 0
        response := none
        err := none }
    else if p.QoS = 1 ∨ p.QoS = 2 then
      publishQoS12 p pid w
    else
      { written := []
        permitsAcquired := 0
        permitsReleased := 0
        response := none
        err := some PublishErr.oops }

/-- strings.IndexAny(t, "#+") > -1 of client.go 398: the topic contains a
wildcard character. -/
def containsWildcard (t : String) : Bool :=
  t.data.any (fun ch => ch == '#' || ch == '+')

/-- strings.HasPrefix(t, "$share") of client.go 409. -/
def hasShareStart (t : String) : Bool :=
  "$share".data.isPrefixOf t.data

/-- The properties of an outbound Subscribe read by the pre-flight checks. -/
structure SubscribeProperties where
  SubscriptionIdentifier : Option Nat
  deriving DecidableEq, Repr

/-- The caller-supplied Subscribe parameters; Subscriptions keeps the map
keys (the topic filters) as a list. -/
structure SubscribePacket where
  Subscriptions : List String
  Properties : Option SubscribeProperties
  deriving DecidableEq, Repr

/-- s.Properties != nil && s.Properties.SubscriptionIdentifier != nil of
client.go 404. -/
def subHasSubID (s : SubscribePacket) : Bool :=
  match s.Properties with
  | some p => p.SubscriptionIdentifier.isSome
  | none => false

/-- Properties carried by a SUBACK (reason string only). -/
structure SubackProperties where
  ReasonString : String
  deriving DecidableEq, Repr

/-- A SUBACK as seen by Client.Subscribe. -/
structure Suback where
  Reasons : List Nat
  Properties : Option SubackProperties
  deriving DecidableEq, Repr

/-- Errors of Client.Subscribe, one constructor per distinct source return. -/
inductive SubscribeErr where
  | wildcardDenied (topic : String)
  | subIDDenied
  | sharedSubDenied (topic : String)
  | wrongPacketType (got : PacketType)
  | subscribeFailed (reason : String)
  | atLeastOneFailed
  deriving DecidableEq, Repr

/-- The capability validation at the top of Client.Subscribe
(client.go 395-413), in source order: wildcard filters, then subscription
identifier, then shared-subscription filters; list order stands in for the
Go map iteration. -/
def subscribePreflight (sp : CommsProperties) (s : SubscribePacket) : Option SubscribeErr :=
  match (if sp.WildcardSubAvailable then none else s.Subscriptions.find? containsWildcard) with
  | some t => some (SubscribeErr.wildcardDenied t)
  | none =>
    if sp.SubIDAvailable = false ∧ subHasSubID s = true then
      some SubscribeErr.subIDDenied
    else
      match (if sp.SharedSubAvailable then none else s.Subscriptions.find? hasShareStart) with
      | some t => some (SubscribeErr.sharedSubDenied t)
      | none => none

/-- The pre-wait part of Client.Subscribe: validation, then the SUBSCRIBE
write (client.go 395-427); nothing hits the wire when validation fails. -/
def subscribeCall (sp : CommsProperties) (s : SubscribePacket) (pid : Nat) :
    List WirePacket × Option SubscribeErr :=
  match subscribePreflight sp s with
  | some e => ([], some e)
  | none => ([WirePacket.subscribePkt pid], none)

/-- The reason string taken from a SUBACK when its Properties are present
(client.go 451-453). -/
def subackReasonString (sa : Suback) : String :=
  match sa.Properties with
  | some p => p.ReasonString
  | none => ""

/-- The packet delivered for the Subscribe packet identifier. -/
inductive SubAckInput where
  | suback (sa : Suback)
  | otherPacket (t : PacketType)
  deriving DecidableEq, Repr

/-- The response processing of Client.Subscribe (client.go 440-465): a
non-SUBACK packet is an error without an ack; a single-reason SUBACK at or
above 0x80 fails with the reason string; a SUBACK of any other length fails
when some code is at or above 0x80; everything else succeeds with the ack. -/
def subscribeHandleAck (pkt : SubAckInput) : Option Suback × Option SubscribeErr :=
  match pkt with
  | SubAckInput.otherPacket t => (none, some (SubscribeErr.wrongPacketType t))
  | SubAckInput.suback sa =>
    match sa.Reasons with
    | [r] =>
      if 0x80 ≤ r then
        (some sa, some (SubscribeErr.subscribeFailed (subackReasonString sa)))
      else (some sa, none)
    | rs =>
      if rs.any (fun code => 0x80 ≤ code) then (some sa, some SubscribeErr.atLeastOneFailed)
      else (some sa, none)

/-- Properties carried by an UNSUBACK (reason string only). -/
structure UnsubackProperties where
  ReasonString : String
  deriving DecidableEq, Repr

/-- An UNSUBACK as seen by Client.Unsubscribe. -/
structure Unsuback where
  Reasons : List Nat
  Properties : Option UnsubackProperties
  deriving DecidableEq, Repr

/-- Errors of Client.Unsubscribe, one constructor per distinct source
return. -/
inductive UnsubscribeErr where
  | wrongPacketType (got : PacketType)
  | unsubscribeFailed (reason : String)
  | atLeastOneFailed
  deriving DecidableEq, Repr

/-- The reason string taken from an UNSUBACK when its Properties are present
(client.go 506-509). -/
def unsubackReasonString (ua : Unsuback) : String :=
  match ua.Properties with
  | some p => p.ReasonString
  | none => ""

/-- The packet delivered for the Unsubscribe packet identifier. -/
inductive UnsubAckInput where
  | unsuback (ua : Unsuback)
  | otherPacket (t : PacketType)
  deriving DecidableEq, Repr

/-- The response processing of Client.Unsubscribe (client.go 497-522),
symmetric to the Subscribe one. -/
def unsubscribeHandleAck (pkt : UnsubAckInput) : Option Unsuback × Option UnsubscribeErr :=
  match pkt with
  | UnsubAckInput.otherPacket t => (none, some (UnsubscribeErr.wrongPacketType t))
  | UnsubAckInput.unsuback ua =>
    match ua.Reasons with
    | [r] =>
      if 0x80 ≤ r then
        (some ua, some (UnsubscribeErr.unsubscribeFailed (unsubackReasonString ua)))
      else (some ua, none)
    | rs =>
      if rs.any (fun code => 0x80 ≤ code) then (some ua, some UnsubscribeErr.atLeastOneFailed)
      else (some ua, none)

/-- The transport (net.Conn) as a recorder: the packets written so far,
whether Close has been called, and how many times.  A write on a closed
connection fails, as net.Conn writes do after Close. -/
structure Transport where
  closed : Bool
  closeCount : Nat
  writes : List WirePacket
  deriving DecidableEq, Repr

/-- A write to the transport: records the packet and reports success, or
fails when the connection is already closed. -/
def Transport.write (tr : Transport) (p : WirePacket) : Transport × Bool :=
  if tr.closed then (tr, false)
  else ({ tr with writes := tr.writes ++ [p] }, true)

/-- Conn.Close: marks the transport closed and counts the invocation. -/
def Transport.close (tr : Transport) : Transport :=
  { tr with closed := true, closeCount := tr.closeCount + 1 }

/-- The error Disconnect can return: the DISCONNECT write failed. -/
inductive DisconnectErr where
  | writeFailed
  deriving DecidableEq, Repr

/-- Client.Disconnect (client.go 623-632): writes a DISCONNECT packet
best-effort, then the deferred Conn.Close runs unconditionally; the write
error is returned.  The source keeps no phase flag, so every call repeats
this sequence. -/
def Disconnect (tr : Transport) : Transport × Option DisconnectErr :=
  match tr.write WirePacket.disconnectPkt with
  | (tr1, ok) => (tr1.close, if ok then none else some DisconnectErr.writeFailed)

/-- A freshly connected transport. -/
def freshTransport : Transport :=
  { closed := false, closeCount := 0, writes := [] }

/-! Concrete sample inputs used by counterexamples and witnesses. -/

/-- A Connect packet with no properties, as a caller using the defaults. -/
def cpSample : ConnectPacket :=
  { ClientID := "cli", KeepAlive := 30, Properties := none }

/-- CONNACK properties advertising ReceiveMaximum 10, assigned client id
"c17" and a server keep-alive of 17. -/
def caProps10 : ConnackProperties :=
  { ServerKeepAlive := some 17
    AssignedClientID := "c17"
    ReceiveMaximum := some 10
    MaximumQoS := none
    MaximumPacketSize := none
    TopicAliasMaximum := none
    RetainAvailable := true
    WildcardSubAvailable := true
    SubIDAvailable := true
    SharedSubAvailable := true
    ReasonString := "" }

/-- A successful CONNACK carrying caProps10. -/
def caSample10 : Connack :=
  { ReasonCode := 0, Properties := some caProps10 }

/-- A QoS 2 publish to topic "t". -/
def pubQoS2 : PublishPacket :=
  { QoS := 2, Retain := false, Topic := "t", payloadSize := 1, Properties := none }

/-- A QoS 1 publish to topic "t". -/
def pubQoS1 : PublishPacket :=
  { QoS := 1, Retain := false, Topic := "t", payloadSize := 1, Properties := none }

/-! Claim theorems. -/

/-- Claim C1 (code bug): the ingress demultiplexer's PUBREL handler has the
polarity inverted.  For a PUBREL with success reason code 0 (below 0x80) the
code writes no PUBCOMP, and for a PUBREL with failure reason code 0x80 it
does write a PUBCOMP with the same packet identifier — the exact opposite of
the claim and of the handler's own comment, which says it auto-responds to
PUBRELs unless they carry a failure code. -/
theorem incomingPubrel_polarity_inverted :
    incomingPubrel { PacketID := 7, ReasonCode := 0 } = [] ∧
    incomingPubrel { PacketID := 7, ReasonCode := 0x80 } = [WirePacket.pubcompPkt 7] := by
  decide

/-- Claim C2 (code bug): a QoS 2 publish whose first response is a PUBREC
with reason code 0x87 terminates the exchange early and releases the single
acquired server-inflight permit, but returns err = none — success — instead
of a PublishRejected error; only the response struct carries the failure
code. -/
theorem publishQoS12_pubrec_error_returns_no_error :
    publishQoS12 pubQoS2 3
        (WaitOutcome.received (ControlPacket.pubrec { PacketID := 3, ReasonCode := 0x87 })) =
      { written := [WirePacket.publishPkt 3 2 false "t" 1]
        permitsAcquired := 1
        permitsReleased := 1
        response := some { ReasonCode := 0x87 }
        err := none } := by
  decide

/-- Claim C5 (code bug): a QoS 1 publish whose deadline elapses before a
response returns the Timeout error, but the acquired server-inflight permit
is never released (permitsReleased = 0 against permitsAcquired = 1), so the
inflight window does not return to its initial value. -/
theorem publishQoS12_timeout_leaks_permit :
    publishQoS12 pubQoS1 4 WaitOutcome.deadlineExceeded =
      { written := [WirePacket.publishPkt 4 1 false "t" 1]
        permitsAcquired := 1
        permitsReleased := 0
        response := none
        err := some PublishErr.timeout } := by
  decide

/-- Claim C3 counterexample: connecting a default client (which declared no
ReceiveMaximum of its own) over a CONNACK carrying ReceiveMaximum = 10 sizes
the server-inflight window to 10 but the client-inflight window to the
client default 65535, so the two windows do not both have capacity 10. -/
theorem connect_client_window_not_peer_sized :
    ((newClient true).Connect cpSample caSample10).state.serverInflightCap = some 10 ∧
    ((newClient true).Connect cpSample caSample10).state.clientInflightCap = some 65535 ∧
    ((newClient true).Connect cpSample caSample10).state.clientInflightCap ≠ some 10 := by
  decide

/-- applyConnackProps adopts an advertised ReceiveMaximum; the later field
updates in the source leave the value untouched. -/
theorem applyConnackProps_ReceiveMaximum (sp : CommsProperties) (p : ConnackProperties)
    (m : Nat) (hm : p.ReceiveMaximum = some m) :
    (applyConnackProps sp p).ReceiveMaximum = m := by
  unfold applyConnackProps
  rw [hm]
  cases p.MaximumQoS <;> cases p.MaximumPacketSize <;> cases p.TopicAliasMaximum <;> rfl

/-- connackAdopt never touches the client-side properties. -/
theorem connackAdopt_clientProps (c : Client) (ca : Connack) :
    (connackAdopt c ca).clientProps = c.clientProps := by
  cases hca : ca.Properties with
  | none => simp [connackAdopt, hca]
  | some p =>
    by_cases h : p.AssignedClientID = "" <;> simp [connackAdopt, hca, h]

/-- Claim C3 (amended): after a CONNACK with reason code below 0x80, the
client adopts the server CommsProperties from the CONNACK, takes the
server-assigned ClientID and the ServerKeepAlive override when present,
sizes the server-inflight window to the CONNACK's advertised ReceiveMaximum,
but sizes the client-inflight window to the client's own declared
ReceiveMaximum — not to the CONNACK's value. -/
theorem connect_adopts_connack (c : Client) (cp : ConnectPacket) (ca : Connack)
    (p : ConnackProperties) (m k : Nat)
    (hconn : c.hasConn = true) (hok : ca.ReasonCode < 0x80)
    (hp : ca.Properties = some p) (hm : p.ReceiveMaximum = some m)
    (hk : p.ServerKeepAlive = some k) (hid : p.AssignedClientID ≠ "") :
    (c.Connect cp ca).err = none ∧
    (c.Connect cp ca).state.ClientID = p.AssignedClientID ∧
    (c.Connect cp ca).keepalive = k ∧
    (c.Connect cp ca).state.serverProps = applyConnackProps c.serverProps p ∧
    (c.Connect cp ca).state.serverInflightCap = some m ∧
    (c.Connect cp ca).state.clientInflightCap =
      some (applyConnectProps c.clientProps cp.Properties).ReceiveMaximum ∧
    (c.Connect cp ca).pingerStarted = true := by
  have hnot : ¬ (0x80 ≤ ca.ReasonCode) := by omega
  simp [Client.Connect, connackAdopt, connackKeepalive, hconn, hnot, hp, hk, hid,
    applyConnackProps_ReceiveMaximum c.serverProps p m hm]

/-- Claim C3 witness: the amended theorem at the sample client and CONNACK;
the server window gets capacity 10, the client window 65535. -/
theorem connect_adopts_connack_witness :
    ((newClient true).Connect cpSample caSample10).err = none ∧
    ((newClient true).Connect cpSample caSample10).state.ClientID = caProps10.AssignedClientID ∧
    ((newClient true).Connect cpSample caSample10).keepalive = 17 ∧
    ((newClient true).Connect cpSample caSample10).state.serverProps =
      applyConnackProps (newClient true).serverProps caProps10 ∧
    ((newClient true).Connect cpSample caSample10).state.serverInflightCap = some 10 ∧
    ((newClient true).Connect cpSample caSample10).state.clientInflightCap =
      some (applyConnectProps (newClient true).clientProps cpSample.Properties).ReceiveMaximum ∧
    ((newClient true).Connect cpSample caSample10).pingerStarted = true :=
  connect_adopts_connack (newClient true) cpSample caSample10 caProps10 10 17
    rfl (by decide) rfl rfl rfl (by decide)

/-- Claim C9: a Connect on a client whose connection is nil returns the
error at once: nothing is written, the Incoming reader is not spawned, and
the client state is unchanged. -/
theorem connect_nil_conn (c : Client) (cp : ConnectPacket) (ca : Connack)
    (h : c.hasConn = false) :
    (c.Connect cp ca).err = some ConnectErr.nilConn ∧
    (c.Connect cp ca).written = [] ∧
    (c.Connect cp ca).incomingStarted = false ∧
    (c.Connect cp ca).pingerStarted = false ∧
    (c.Connect cp ca).state = c := by
  simp [Client.Connect, h]

/-- Claim C9 witness: the theorem at a fresh client with no connection. -/
theorem connect_nil_conn_witness :
    ((newClient false).Connect cpSample caSample10).err = some ConnectErr.nilConn ∧
    ((newClient false).Connect cpSample caSample10).written = [] ∧
    ((newClient false).Connect cpSample caSample10).incomingStarted = false ∧
    ((newClient false).Connect cpSample caSample10).pingerStarted = false ∧
    ((newClient false).Connect cpSample caSample10).state = newClient false :=
  connect_nil_conn (newClient false) cpSample caSample10 rfl

/-- A server advertising MaximumPacketSize 1. -/
def spTinyPacket : CommsProperties :=
  { defaultServerProps with MaximumPacketSize := 1 }

/-- A QoS 0 publish whose body size is 1000. -/
def pubBig : PublishPacket :=
  { QoS := 0, Retain := false, Topic := "t", payloadSize := 1000, Properties := none }

/-- Claim C4 counterexample: with server MaximumPacketSize = 1 (> 0), a
publish whose body size is 1000 passes the pre-flight validation untouched —
the source has no size check — and the PUBLISH is written to the wire with
no error, instead of failing with a size capability denial before any wire
activity. -/
theorem publish_no_size_check :
    0 < spTinyPacket.MaximumPacketSize ∧
    spTinyPacket.MaximumPacketSize < pubBig.payloadSize ∧
    publishPreflight spTinyPacket pubBig = none ∧
    Publish spTinyPacket pubBig 9 WaitOutcome.deadlineExceeded =
      { written := [WirePacket.publishPkt 9 0 false "t" 1000]
        permitsAcquired := 0
        permitsReleased := 0
        response := none
        err := none } := by
  decide

/-- The pre-flight validation rejects whenever one of the three implemented
conditions is violated. -/
theorem publishPreflight_isSome (sp : CommsProperties) (p : PublishPacket)
    (h : sp.MaximumQoS < p.QoS ∨
         (sp.RetainAvailable = false ∧ p.Retain = true) ∨
         (∃ pp a, p.Properties = some pp ∧ pp.TopicAlias = some a ∧
            0 < sp.TopicAliasMaximum ∧ sp.TopicAliasMaximum < a)) :
    (publishPreflight sp p).isSome = true := by
  unfold publishPreflight
  rcases h with h | ⟨h1, h2⟩ | ⟨pp, a, hp, ha, h1, h2⟩
  · simp [h]
  · by_cases hq : sp.MaximumQoS < p.QoS
    · simp [hq]
    · cases hav : publishAliasViolation sp p <;> simp [hq, hav, h1, h2]
  · by_cases hq : sp.MaximumQoS < p.QoS
    · simp [hq]
    · have hav : publishAliasViolation sp p = some a := by
        simp [publishAliasViolation, hp, ha, h1, h2]
      simp [hq, hav]

/-- Claim C4 (amended): QoS above the server MaximumQoS, Retain when
RetainAvailable is false, and a TopicAlias above TopicAliasMaximum (when
that maximum is positive) are each rejected pre-flight with nothing written
to the wire; the body size is never compared against the server
MaximumPacketSize. -/
theorem publish_capability_checks (sp : CommsProperties) (p : PublishPacket)
    (pid : Nat) (w : WaitOutcome)
    (h : sp.MaximumQoS < p.QoS ∨
         (sp.RetainAvailable = false ∧ p.Retain = true) ∨
         (∃ pp a, p.Properties = some pp ∧ pp.TopicAlias = some a ∧
            0 < sp.TopicAliasMaximum ∧ sp.TopicAliasMaximum < a)) :
    (Publish sp p pid w).written = [] ∧
    (Publish sp p pid w).permitsAcquired = 0 ∧
    (Publish sp p pid w).err.isSome = true := by
  have hs := publishPreflight_isSome sp p h
  unfold Publish
  cases hpf : publishPreflight sp p with
  | none => rw [hpf] at hs; simp at hs
  | some e => simp

/-- Claim C4 witness: a retained publish against a server with
RetainAvailable = false is rejected with no wire activity. -/
theorem publish_capability_checks_witness :
    (Publish { defaultServerProps with RetainAvailable := false }
        { QoS := 0, Retain := true, Topic := "t", payloadSize := 1, Properties := none }
        1 WaitOutcome.deadlineExceeded).written = [] ∧
    (Publish { defaultServerProps with RetainAvailable := false }
        { QoS := 0, Retain := true, Topic := "t", payloadSize := 1, Properties := none }
        1 WaitOutcome.deadlineExceeded).permitsAcquired = 0 ∧
    (Publish { defaultServerProps with RetainAvailable := false }
        { QoS := 0, Retain := true, Topic := "t", payloadSize := 1, Properties := none }
        1 WaitOutcome.deadlineExceeded).err.isSome = true :=
  publish_capability_checks _ _ 1 WaitOutcome.deadlineExceeded (Or.inr (Or.inl ⟨rfl, rfl⟩))

/-- Claim C6: the SUBACK taxonomy of Subscribe.  All reason codes below 0x80
yield the ack with no error; a single-reason SUBACK at or above 0x80 yields
the subscribe-failed error carrying the SUBACK reason string; a SUBACK whose
reason vector is not a singleton and contains a code at or above 0x80 yields
the partial-failure error together with the full ack (and its reason
vector); a non-SUBACK packet delivered for the identifier yields the
wrong-packet-type error. -/
theorem subscribe_suback_taxonomy (sa : Suback) (t : PacketType) :
    ((∀ r ∈ sa.Reasons, r < 0x80) →
       subscribeHandleAck (SubAckInput.suback sa) = (some sa, none)) ∧
    (∀ r, sa.Reasons = [r] → 0x80 ≤ r →
       subscribeHandleAck (SubAckInput.suback sa) =
         (some sa, some (SubscribeErr.subscribeFailed (subackReasonString sa)))) ∧
    (sa.Reasons.length ≠ 1 → (∃ r ∈ sa.Reasons, 0x80 ≤ r) →
       subscribeHandleAck (SubAckInput.suback sa) =
         (some sa, some SubscribeErr.atLeastOneFailed)) ∧
    subscribeHandleAck (SubAckInput.otherPacket t) =
      (none, some (SubscribeErr.wrongPacketType t)) := by
  obtain ⟨rs, props⟩ := sa
  refine ⟨?_, ?_, ?_, rfl⟩
  · intro hall
    rcases rs with _ | ⟨r1, _ | ⟨r2, rest⟩⟩
    · rfl
    · have h1 : ¬ (0x80 ≤ r1) := by
        have := hall r1 (by simp)
        omega
      simp [subscribeHandleAck, h1]
    · have h : (r1 :: r2 :: rest).any (fun code => 0x80 ≤ code) = false := by
        rw [List.any_eq_false]
        intro x hx
        have := hall x hx
        simpa using by omega
      simp [subscribeHandleAck, h]
  · intro r hr hge
    subst hr
    simp [subscribeHandleAck, hge]
  · intro hlen hex
    obtain ⟨r, hr, hge⟩ := hex
    rcases rs with _ | ⟨r1, _ | ⟨r2, rest⟩⟩
    · simp at hr
    · simp at hlen
    · have h : (r1 :: r2 :: rest).any (fun code => 0x80 ≤ code) = true := by
        rw [List.any_eq_true]
        exact ⟨r, hr, by simpa using hge⟩
      simp [subscribeHandleAck, h]

/-- Claim C6 witness: a two-reason SUBACK with 0x80 among the codes yields
the partial-failure error and carries the full ack back. -/
theorem subscribe_suback_taxonomy_witness :
    subscribeHandleAck (SubAckInput.suback { Reasons := [0, 0x80], Properties := none }) =
      (some { Reasons := [0, 0x80], Properties := none },
       some SubscribeErr.atLeastOneFailed) :=
  (subscribe_suback_taxonomy { Reasons := [0, 0x80], Properties := none }
      PacketType.PUBACK).2.2.1 (by decide) ⟨0x80, by decide, by decide⟩

/-- Claim C10: a SUBACK or UNSUBACK whose reason vector is empty is treated
as total success: the ack is returned with no error by the Subscribe and
Unsubscribe response processing. -/
theorem empty_reason_vector_success (ps : Option SubackProperties)
    (pu : Option UnsubackProperties) :
    subscribeHandleAck (SubAckInput.suback { Reasons := [], Properties := ps }) =
      (some { Reasons := [], Properties := ps }, none) ∧
    unsubscribeHandleAck (UnsubAckInput.unsuback { Reasons := [], Properties := pu }) =
      (some { Reasons := [], Properties := pu }, none) :=
  ⟨rfl, rfl⟩

/-- Claim C7: the Subscribe capability validation runs in source order
before any wire write.  With wildcards unavailable, some filter containing a
wildcard character is reported and nothing is written; with the wildcard
check passing, an unavailable subscription identifier that is present is
rejected; with both earlier checks passing, shared subscriptions being
unavailable and some filter starting with the share marker is rejected — in
each case with an empty wire trace. -/
theorem subscribe_capability_order (sp : CommsProperties) (s : SubscribePacket) (pid : Nat) :
    (sp.WildcardSubAvailable = false → (∃ t ∈ s.Subscriptions, containsWildcard t = true) →
       ∃ t, t ∈ s.Subscriptions ∧ containsWildcard t = true ∧
         subscribeCall sp s pid = ([], some (SubscribeErr.wildcardDenied t))) ∧
    ((sp.WildcardSubAvailable = true ∨ ∀ t ∈ s.Subscriptions, containsWildcard t = false) →
     sp.SubIDAvailable = false → subHasSubID s = true →
       subscribeCall sp s pid = ([], some SubscribeErr.subIDDenied)) ∧
    ((sp.WildcardSubAvailable = true ∨ ∀ t ∈ s.Subscriptions, containsWildcard t = false) →
     (sp.SubIDAvailable = true ∨ subHasSubID s = false) →
     sp.SharedSubAvailable = false → (∃ t ∈ s.Subscriptions, hasShareStart t = true) →
       ∃ t, t ∈ s.Subscriptions ∧ hasShareStart t = true ∧
         subscribeCall sp s pid = ([], some (SubscribeErr.sharedSubDenied t))) := by
  refine ⟨?_, ?_, ?_⟩
  · intro hw hex
    have hsome : (s.Subscriptions.find? containsWildcard).isSome := by
      rw [List.find?_isSome]
      exact hex
    obtain ⟨t, ht⟩ := Option.isSome_iff_exists.mp hsome
    exact ⟨t, List.mem_of_find?_eq_some ht, List.find?_some ht,
      by simp [subscribeCall, subscribePreflight, hw, ht]⟩
  · intro hw hid hhas
    have hnone : (if sp.WildcardSubAvailable then none
        else s.Subscriptions.find? containsWildcard) = none := by
      rcases hw with hw | hw
      · simp [hw]
      · split
        · rfl
        · rw [List.find?_eq_none]
          intro x hx
          simp [hw x hx]
    simp [subscribeCall, subscribePreflight, hnone, hid, hhas]
  · intro hw hsub hsh hex
    have hnone : (if sp.WildcardSubAvailable then none
        else s.Subscriptions.find? containsWildcard) = none := by
      rcases hw with hw | hw
      · simp [hw]
      · split
        · rfl
        · rw [List.find?_eq_none]
          intro x hx
          simp [hw x hx]
    have hsome : (s.Subscriptions.find? hasShareStart).isSome := by
      rw [List.find?_isSome]
      exact hex
    obtain ⟨t, ht⟩ := Option.isSome_iff_exists.mp hsome
    have hnosub : ¬ (sp.SubIDAvailable = false ∧ subHasSubID s = true) := by
      rcases hsub with hsub | hsub <;> simp [hsub]
    exact ⟨t, List.mem_of_find?_eq_some ht, List.find?_some ht,
      by simp [subscribeCall, subscribePreflight, hnone, hnosub, hsh, ht]⟩

/-- Claim C7 witness: subscribing to the wildcard filter against a server
with wildcard subscriptions unavailable is denied with no wire write. -/
theorem subscribe_capability_order_witness :
    ∃ t, t ∈ ({ Subscriptions := ["a/#"], Properties := none } : SubscribePacket).Subscriptions ∧
      containsWildcard t = true ∧
      subscribeCall { defaultServerProps with WildcardSubAvailable := false }
          { Subscriptions := ["a/#"], Properties := none } 1 =
        ([], some (SubscribeErr.wildcardDenied t)) :=
  (subscribe_capability_order { defaultServerProps with WildcardSubAvailable := false }
      { Subscriptions := ["a/#"], Properties := none } 1).1 rfl
    ⟨"a/#", by simp, by decide⟩

/-- Claim C8 counterexample: calling Disconnect twice on a fresh transport
closes the transport twice, not exactly once; the first call returns
success, the second returns the write failure from the already-closed
transport — there is no SessionClosed outcome in the code at all. -/
theorem disconnect_twice_closes_twice :
    (Disconnect freshTransport).2 = none ∧
    (Disconnect freshTransport).1.closeCount = 1 ∧
    (Disconnect (Disconnect freshTransport).1).2 = some DisconnectErr.writeFailed ∧
    (Disconnect (Disconnect freshTransport).1).1.closeCount = 2 := by
  decide

/-- Claim C8 (amended): the first Disconnect writes the DISCONNECT packet
best-effort, closes the transport unconditionally and returns success; a
second Disconnect finds the transport closed, so its write fails and it
returns that write error (not a SessionClosed outcome, which the code does
not have) while invoking close on the transport a second time. -/
theorem disconnect_twice_behaviour (tr : Transport) (h : tr.closed = false) :
    (Disconnect tr).2 = none ∧
    (Disconnect tr).1.writes = tr.writes ++ [WirePacket.disconnectPkt] ∧
    (Disconnect tr).1.closed = true ∧
    (Disconnect tr).1.closeCount = tr.closeCount + 1 ∧
    (Disconnect (Disconnect tr).1).2 = some DisconnectErr.writeFailed ∧
    (Disconnect (Disconnect tr).1).1.closeCount = tr.closeCount + 2 := by
  simp [Disconnect, Transport.write, Transport.close, h]

/-- Claim C8 witness: the amended theorem at the fresh transport. -/
theorem disconnect_twice_behaviour_witness :
    (Disconnect freshTransport).2 = none ∧
    (Disconnect freshTransport).1.writes =
      freshTransport.writes ++ [WirePacket.disconnectPkt] ∧
    (Disconnect freshTransport).1.closed = true ∧
    (Disconnect freshTransport).1.closeCount = freshTransport.closeCount + 1 ∧
    (Disconnect (Disconnect freshTransport).1).2 = some DisconnectErr.writeFailed ∧
    (Disconnect (Disconnect freshTransport).1).1.closeCount =
      freshTransport.closeCount + 2 :=
  disconnect_twice_behaviour freshTransport rfl

end PahoClient
